import Mathlib

/-!
Shallow embedding of the flight-school scheduling snapshot builder
(src/flightlogger.py, src/classes/*.py) and proofs about its derived
attributes: availability resolution, month-to-date aggregation, tiredness,
training ordering, pagination, retry, booking classification and the
per-aircraft booked-minutes counter.

Machine conventions: Python datetimes are modelled as a calendar date plus a
minute-of-day; date subtraction uses the proleptic Gregorian ordinal, which is
what Python's datetime.date arithmetic computes.  Float minute totals in the
source are exact integer differences of minutes here; the tiredness score is
computed in the rationals.
-/

namespace FSS

/-- Calendar date (models Python datetime.date: year, month, day). -/
structure Date where
  year : Int
  month : Int
  day : Int
deriving DecidableEq, Repr

/-- Lexicographic order on dates, as Python compares datetime.date values. -/
def Date.le (a b : Date) : Bool :=
  decide (a.year < b.year) ||
    (a.year == b.year &&
      (decide (a.month < b.month) ||
        (a.month == b.month && decide (a.day ≤ b.day))))

/-- Models SCHEDULING_DATE.replace(day=1) from User.initialize (user.py line 114). -/
def Date.monthStart (d : Date) : Date := ⟨d.year, d.month, 1⟩

/-- Gregorian leap-year test, as in Python's calendar arithmetic. -/
def Date.isLeap (y : Int) : Bool :=
  y % 4 == 0 && (y % 100 != 0 || y % 400 == 0)

/-- Cumulative day count before the given month (1-based), leap-adjusted. -/
def Date.daysBeforeMonth (leap : Bool) (m : Int) : Int :=
  (if m ≤ 1 then 0
   else if m == 2 then 31
   else if m == 3 then 59
   else if m == 4 then 90
   else if m == 5 then 120
   else if m == 6 then 151
   else if m == 7 then 181
   else if m == 8 then 212
   else if m == 9 then 243
   else if m == 10 then 273
   else if m == 11 then 304
   else 334)
  + (if leap && decide (3 ≤ m) then 1 else 0)

/-- Proleptic Gregorian ordinal of a date; Python date subtraction is the
difference of these ordinals. -/
def Date.toOrdinal (d : Date) : Int :=
  365 * (d.year - 1) + (d.year - 1) / 4 - (d.year - 1) / 100 + (d.year - 1) / 400
    + Date.daysBeforeMonth (Date.isLeap d.year) d.month + d.day

/-- Models (a - b).days for Python dates. -/
def Date.daysBetween (a b : Date) : Int := a.toOrdinal - b.toOrdinal

/-- Timestamp: a date plus a minute-of-day (models Python datetime.datetime). -/
structure DateTime where
  date : Date
  minute : Int
deriving DecidableEq, Repr

/-- Absolute minute count of a timestamp; datetime differences in the source
are differences of these. -/
def DateTime.toMin (t : DateTime) : Int := t.date.toOrdinal * 1440 + t.minute

/-- Timestamp comparison, as Python compares datetimes. -/
def DateTime.le (a b : DateTime) : Bool := decide (a.toMin ≤ b.toMin)

/-- Flight record: off-block and on-block timestamps plus derived airborne
minutes, as built in User.set_flights and User.set_bookings (user.py). -/
structure Flight where
  off_block : DateTime
  on_block : DateTime
  airborne_minutes : Int
deriving DecidableEq, Repr

/-- Builds a Flight the way user.py does: airborne minutes are the timestamp
difference in minutes. -/
def Flight.make (offB onB : DateTime) : Flight :=
  ⟨offB, onB, onB.toMin - offB.toMin⟩

/-- Availability slot (classes/availability_slot.py). -/
structure AvailabilitySlot where
  starts_at : DateTime
  ends_at : DateTime
  unavailable : Bool
deriving DecidableEq, Repr

/-- Availability resolution from User.set_availabilities (user.py lines
206-226): at least one open slot covering the scheduling date and not wholly
contained in an unavailable slot. -/
def set_availabilities (slots : List AvailabilitySlot) (sched : Date) : Bool :=
  if slots.isEmpty then false
  else
    slots.any fun a =>
      !a.unavailable &&
      !(slots.any fun a2 =>
          DateTime.le a2.starts_at a.starts_at &&
          DateTime.le a.ends_at a2.ends_at &&
          a2.unavailable) &&
      Date.le a.starts_at.date sched &&
      Date.le sched a.ends_at.date

/-- Booking record as stored by Booking.__init__ (classes/booking.py); the
aircraft reference is kept as the resolved call sign. -/
structure Booking where
  typename : String
  starts_at : DateTime
  ends_at : DateTime
  comment : String
  id : String
  status : String
  flight : Flight
  planned_lesson : Option String
  instructor : Option String
  renter : Option String
  pic : Option String
  student : Option String
  aircraftCallSign : String
deriving DecidableEq, Repr

/-- Checks that the first list occurs at the head of the second. -/
def headMatch : List Char → List Char → Bool
  | [], _ => true
  | _ :: _, [] => false
  | a :: as, b :: bs => a == b && headMatch as bs

/-- Substring occurrence on character lists. -/
def hasSub (n : List Char) : List Char → Bool
  | [] => headMatch n []
  | c :: cs => headMatch n (c :: cs) || hasSub n cs

/-- Models the Python substring test: needle in haystack. -/
def containsSub (needle hay : String) : Bool := hasSub needle.data hay.data

/-- ASCII lowercasing of one character; models Python str.lower on the
call signs and comments handled here. -/
def lowerChar (c : Char) : Char :=
  if 65 ≤ c.toNat && c.toNat ≤ 90 then Char.ofNat (c.toNat + 32) else c

/-- ASCII lowercasing of a string. -/
def strLower (s : String) : String := ⟨s.data.map lowerChar⟩

/-- Models Booking.is_solo (booking.py lines 52-55): the comment or the planned
lesson lecture name contains solo, case-insensitively. -/
def Booking.is_solo (b : Booking) : Bool :=
  containsSub "solo" (strLower b.comment) ||
    (match b.planned_lesson with
     | none => false
     | some n => containsSub "solo" (strLower n))

/-- Models Booking.is_cancelled (booking.py line 58). -/
def Booking.is_cancelled (b : Booking) : Bool := b.status == "CANCELLED"

/-- Stable insertion into a descending-by-key list; models one step of the
stable descending sort that Python list.sort(key=..., reverse=True) performs. -/
def insertDescBy {α : Type} (key : α → Int) (x : α) : List α → List α
  | [] => [x]
  | y :: ys =>
    if key x < key y then y :: insertDescBy key x ys
    else x :: y :: ys

/-- Stable descending sort by an integer key. -/
def sortDescBy {α : Type} (key : α → Int) : List α → List α
  | [] => []
  | x :: xs => insertDescBy key x (sortDescBy key xs)

/-- Sentinel-or-count value of days_since_last_flight; the source initialises
the attribute to -math.inf (user.py line 60). -/
inductive DaysVal where
  | negInf
  | days (n : Int)
deriving DecidableEq, Repr

/-- Models User.initialize lines 94-105: latest booking start date if any
booking exists (bookings sorted descending by start, first taken), else latest
flight off-block date, else the negative-infinity sentinel. -/
def days_since_last_flight (flights : List Flight) (bookings : List Booking)
    (sched : Date) : DaysVal :=
  match sortDescBy (fun b => b.starts_at.toMin) bookings with
  | b :: _ => .days (Date.daysBetween sched b.starts_at.date)
  | [] =>
    match sortDescBy (fun f => f.off_block.toMin) flights with
    | f :: _ => .days (Date.daysBetween sched f.off_block.date)
    | [] => .negInf

/-- Models User.initialize lines 111-123: month-to-date airborne minutes from
flights in the window plus non-solo, non-cancelled bookings in the window. -/
def airborne_time_mtd_minutes (flights : List Flight) (bookings : List Booking)
    (sched : Date) : Int :=
  ((flights.filter fun f =>
      Date.le (Date.monthStart sched) f.off_block.date &&
      Date.le f.off_block.date sched).map (·.airborne_minutes)).sum
  + ((bookings.filter fun b =>
      Date.le (Date.monthStart sched) b.starts_at.date &&
      Date.le b.starts_at.date sched &&
      !b.is_solo && !b.is_cancelled).map (·.flight.airborne_minutes)).sum

/-- Models User.initialize lines 126-140; the trailing Python idiom (sum or 0)
is the numeric identity and is dropped. -/
def airborne_time_on_scheduling_date (flights : List Flight)
    (bookings : List Booking) (sched : Date) : Int :=
  ((flights.filter fun f => f.off_block.date == sched).map
      (·.airborne_minutes)).sum
  + ((bookings.filter fun b =>
      b.starts_at.date == sched && !b.is_solo && !b.is_cancelled).map
      (·.flight.airborne_minutes)).sum

/-- Number of non-solo, non-cancelled bookings starting on the scheduling
date; models the Python sum of booleans in User.initialize lines 150-155. -/
def qualifyingBookingCount (bookings : List Booking) (sched : Date) : Nat :=
  (bookings.filter fun b =>
    b.starts_at.date == sched && !b.is_solo && !b.is_cancelled).length

/-- Tiredness formula of User.initialize lines 146-159, in the rationals; the
trailing (expr or 0) is the numeric identity and is dropped. -/
def tiredness (flights : List Flight) (bookings : List Booking)
    (sched : Date) : ℚ :=
  ((airborne_time_on_scheduling_date flights bookings sched : ℚ) / 60
      + (qualifyingBookingCount bookings sched : ℚ)) / 9 * 100

/-- Models User.initialize lines 162-165. -/
def has_booking_on_scheduling_date (bookings : List Booking)
    (sched : Date) : Bool :=
  bookings.any fun b => b.starts_at.date == sched && !b.is_cancelled

/-- Inputs of the per-user derivation. -/
structure UserState where
  is_instructor : Bool
  flights : List Flight
  bookings : List Booking
  availabilities : List AvailabilitySlot
deriving DecidableEq, Repr

/-- Derived per-user attributes of User.initialize; tiredness is only set for
instructors (none models the absent attribute for students). -/
structure DerivedState where
  is_available : Bool
  days_since_last_flight : DaysVal
  airborne_time_mtd_minutes : Int
  airborne_time_on_scheduling_date : Int
  tiredness : Option ℚ
  has_booking_on_scheduling_date : Bool
deriving DecidableEq, Repr

/-- The derived-state computation of User.initialize (user.py lines 68-167). -/
def deriveState (u : UserState) (sched : Date) : DerivedState :=
  { is_available := set_availabilities u.availabilities sched
    days_since_last_flight := days_since_last_flight u.flights u.bookings sched
    airborne_time_mtd_minutes := airborne_time_mtd_minutes u.flights u.bookings sched
    airborne_time_on_scheduling_date :=
      airborne_time_on_scheduling_date u.flights u.bookings sched
    tiredness :=
      if u.is_instructor then some (tiredness u.flights u.bookings sched) else none
    has_booking_on_scheduling_date :=
      has_booking_on_scheduling_date u.bookings sched }

/-- Training order rank from Training.__init__ (classes/training.py lines
26-53): first matching branch of the if chain wins. -/
def trainingOrder (programName name : String) : Nat :=
  if containsSub "PPL" programName || containsSub "LAPL" programName then 1
  else if containsSub "TIME BUILDING" programName then 2
  else if containsSub "IR" programName && containsSub "BASIC" programName then 3
  else if containsSub "NIGHT" programName then 4
  else if containsSub "MEP" programName && containsSub "Initial" programName then 5
  else if containsSub "IR-MEPL" programName && !containsSub "Skill" name then 6
  else if containsSub "CPL" programName && !containsSub "Skill" name then 7
  else if containsSub "Skill" name then 8
  else if containsSub "ATP" programName then 99
  else if containsSub "FI" programName then 100
  else 0

/-- Rank rules as the claim states them, an ordered substring list with first
match wins; written from the claim text for comparison with trainingOrder. -/
def claimTrainingOrder (programName name : String) : Nat :=
  if containsSub "PPL" programName || containsSub "LAPL" programName then 1
  else if containsSub "TIME BUILDING" programName then 2
  else if containsSub "IR" programName && containsSub "BASIC" programName then 3
  else if containsSub "NIGHT" programName then 4
  else if containsSub "MEP" programName && containsSub "Initial" programName then 5
  else if containsSub "IR-MEPL" programName && !containsSub "Skill" name then 6
  else if containsSub "CPL" programName && !containsSub "Skill" name then 7
  else if containsSub "Skill" name then 8
  else if containsSub "ATP" programName then 99
  else if containsSub "FI" programName then 100
  else 0

/-- One page of a cursor-paginated API response (pageInfo plus nodes). -/
structure Page (α : Type) where
  nodes : List α
  endCursor : String
  hasNextPage : Bool
deriving DecidableEq, Repr

/-- The while loop of get_users_by_role (flightlogger.py lines 284-302),
given the current response and the pages the API will serve next.  Returns
the nodes appended by follow-up requests together with the list of cursors
the follow-up requests carry as their after parameter. -/
def usersLoop {α : Type} : Page α → List (Page α) → List α × List String
  | r, [] => if r.hasNextPage then ([], [r.endCursor]) else ([], [])
  | r, q :: rest =>
    if r.hasNextPage then
      (q.nodes ++ (usersLoop q rest).1, r.endCursor :: (usersLoop q rest).2)
    else ([], [])

/-- Paginated users fetch of get_users_by_role (flightlogger.py lines
276-304): first page, then follow-up pages while hasNextPage, each follow-up
request carrying the previous endCursor; node collections are concatenated in
arrival order. -/
def get_users_by_role {α : Type} (pages : List (Page α)) :
    List α × List String :=
  match pages with
  | [] => ([], [])
  | p :: rest => (p.nodes ++ (usersLoop p rest).1, (usersLoop p rest).2)

/-- The API reports exactly these pages: hasNextPage on every page but the
last, and not on the last. -/
def wellPaged {α : Type} : List (Page α) → Bool
  | [] => true
  | [p] => !p.hasNextPage
  | p :: q :: rest => p.hasNextPage && wellPaged (q :: rest)

/-- Raw aircraft node as returned by the aircraft query. -/
structure RawAircraft where
  callSign : String
  totalAirborneMinutes : Int
  aircraftClass : String
deriving DecidableEq, Repr

/-- The stable descending sort by totalAirborneMinutes that get_aircrafts
applies to the first page of nodes (flightlogger.py lines 138-142). -/
def sortAircraftDesc (l : List RawAircraft) : List RawAircraft :=
  sortDescBy (·.totalAirborneMinutes) l

/-- Aircraft fetch of flightlogger.get_aircrafts (lines 110-152): a single
request is sent; pageInfo is requested but hasNextPage is never consulted and
no follow-up request is made, so only the first page of nodes is returned,
re-sorted by descending totalAirborneMinutes. -/
def get_aircrafts (pages : List (Page RawAircraft)) : List RawAircraft :=
  match pages with
  | [] => []
  | p :: _ => sortAircraftDesc p.nodes

/-- Outcome of one send attempt: an error of the transport-classified family
(TransportError, TransportServerError, ClientResponseError), any other
exception, or a successful response. -/
inductive Attempt (α : Type) where
  | transportErr
  | otherErr (msg : String)
  | ok (v : α)
deriving DecidableEq, Repr

/-- Retry loop of send_request (flightlogger.py lines 32-107) over the
sequence of outcomes the transport produces: transport-classified errors are
retried (recursively, with no retry ceiling), other errors propagate, a
success is returned.  none models a request still retrying when the outcome
sequence is exhausted. -/
def send_request {α : Type} : List (Attempt α) → Option (Except String α)
  | [] => none
  | .transportErr :: rest => send_request rest
  | .otherErr m :: _ => some (.error m)
  | .ok v :: _ => some (.ok v)

/-- Raw booking node as attached to user.data by School.get_bookings; party
fields are optional because each variant carries only its own parties. -/
structure RawBooking where
  typename : String
  startsAt : DateTime
  endsAt : DateTime
  comment : Option String
  id : String
  status : String
  instructorCallSign : Option String
  studentCallSign : Option String
  renterCallSign : Option String
  picCallSign : Option String
  flightStartsAt : DateTime
  flightEndsAt : DateTime
  plannedLesson : Option String
  aircraftCallSign : String
deriving DecidableEq, Repr

/-- The Flight built from a raw booking node (user.py set_bookings). -/
def rawFlight (r : RawBooking) : Flight := Flight.make r.flightStartsAt r.flightEndsAt

/-- Aircraft entity (classes/aircraft.py): call sign, lifetime minutes, the
list of bookings registered on it and the scheduling-date minutes counter. -/
structure Aircraft where
  call_sign : String
  total_airborne_minutes : Int
  bookings : List Booking
  sch_date_booked_flight_minutes : Int
deriving DecidableEq, Repr

/-- Aircraft.__init__ (aircraft.py lines 10-25): empty booking list and a zero
scheduled-minutes counter at the start of each run. -/
def Aircraft.init (cs : String) (tam : Int) : Aircraft := ⟨cs, tam, [], 0⟩

/-- The side effect of Booking.__init__ (booking.py lines 65-67): the booking
is appended to its aircraft and the scheduled-minutes counter grows by the
flight airborne minutes. -/
def registerBooking (b : Booking) (a : Aircraft) : Aircraft :=
  { a with
    bookings := a.bookings ++ [b]
    sch_date_booked_flight_minutes :=
      a.sch_date_booked_flight_minutes + b.flight.airborne_minutes }

/-- Registers the booking on the first aircraft whose call sign matches, the
aircraft that Python next(...) resolves in set_bookings. -/
def registerOnFirst (b : Booking) : List Aircraft → List Aircraft
  | [] => []
  | a :: rest =>
    if a.call_sign == b.aircraftCallSign then registerBooking b a :: rest
    else a :: registerOnFirst b rest

/-- Whether some aircraft in the collection has the given call sign. -/
def hasAircraft (cs : String) (as : List Aircraft) : Bool :=
  as.any (·.call_sign == cs)

/-- First aircraft with the given call sign, as Python next(...) resolves. -/
def findByCallSign (cs : String) (as : List Aircraft) : Option Aircraft :=
  as.find? (·.call_sign == cs)

/-- Booking value assembled by a set_bookings branch: common fields projected
from the raw node, party fields as the branch passes them. -/
def mkBooking (r : RawBooking) (inst stud rent pilot : Option String)
    (lesson : Option String) : Booking :=
  { typename := r.typename
    starts_at := r.startsAt
    ends_at := r.endsAt
    comment := r.comment.getD ""
    id := r.id
    status := r.status
    flight := rawFlight r
    planned_lesson := lesson
    instructor := inst
    renter := rent
    pic := pilot
    student := stud
    aircraftCallSign := r.aircraftCallSign }

/-- Aircraft resolution plus registration for one constructed booking: Python
next(...) with no default raises StopIteration when no aircraft matches, which
is fatal. -/
def finishBooking (b : Booking) (as : List Aircraft) :
    Except String (Option Booking × List Aircraft) :=
  if hasAircraft b.aircraftCallSign as then .ok (some b, registerOnFirst b as)
  else .error "StopIteration: no aircraft matches the booking call sign"

/-- One iteration of the loop in User.set_bookings (user.py lines 242-332):
the discriminant chain is if Single, elif Rental, elif Operation, with no else
branch; a missing party field for the matching variant is a KeyError. -/
def buildOne (r : RawBooking) (as : List Aircraft) :
    Except String (Option Booking × List Aircraft) :=
  if containsSub "Single" r.typename then
    match r.instructorCallSign, r.studentCallSign with
    | some i, some s =>
      finishBooking (mkBooking r (some i) (some s) none none r.plannedLesson) as
    | _, _ => .error "KeyError: instructor or student"
  else if containsSub "Rental" r.typename then
    match r.renterCallSign with
    | some rr => finishBooking (mkBooking r none none (some rr) none none) as
    | none => .error "KeyError: renter"
  else if containsSub "Operation" r.typename then
    match r.picCallSign with
    | some p => finishBooking (mkBooking r none none none (some p) none) as
    | none => .error "KeyError: pic"
  else .ok (none, as)

/-- User.set_bookings over the raw nodes of one user, threading the shared
aircraft collection; returns the bookings appended to the user. -/
def set_bookings : List RawBooking → List Aircraft →
    Except String (List Booking × List Aircraft)
  | [], as => .ok ([], as)
  | r :: rs, as =>
    match buildOne r as with
    | .error e => .error e
    | .ok (none, as1) => set_bookings rs as1
    | .ok (some b, as1) =>
      match set_bookings rs as1 with
      | .error e => .error e
      | .ok (bs, as2) => .ok (b :: bs, as2)

/-- Net effect of a run that constructed the bookings bs on the aircraft with
call sign cs: the matching bookings are appended and the counter grows by
their flight minutes.  Used to state what set_bookings does to an aircraft. -/
def accumulateRun (bs : List Booking) (cs : String) (a : Aircraft) : Aircraft :=
  { a with
    bookings := a.bookings ++ bs.filter (fun b => b.aircraftCallSign == cs)
    sch_date_booked_flight_minutes :=
      a.sch_date_booked_flight_minutes +
        ((bs.filter (fun b => b.aircraftCallSign == cs)).map
          (·.flight.airborne_minutes)).sum }

/-- Minutes booked on the given aircraft on the scheduling date, the quantity
the claim says the counter should equal; written from the claim text. -/
def claimSchedDateMinutes (sched : Date) (bs : List Booking) (cs : String) : Int :=
  ((bs.filter fun b =>
    b.aircraftCallSign == cs && b.starts_at.date == sched).map
    (·.flight.airborne_minutes)).sum

/-- A user as School.get_bookings sees it: call sign plus the raw booking
nodes accumulated into user.data. -/
structure UserB where
  call_sign : String
  bookingNodes : List RawBooking
deriving DecidableEq, Repr

/-- Party test of School.get_bookings (school.py lines 147-175): the branch
order there is Single, Operation, Rental; the call sign is compared against
the variant party fields. -/
def partyMatches (r : RawBooking) (cs : String) : Except String Bool :=
  if containsSub "Single" r.typename then
    match r.instructorCallSign, r.studentCallSign with
    | some i, some s => .ok (cs == i || cs == s)
    | _, _ => .error "KeyError: instructor or student"
  else if containsSub "Operation" r.typename then
    match r.picCallSign with
    | some p => .ok (cs == p)
    | none => .error "KeyError: pic"
  else if containsSub "Rental" r.typename then
    match r.renterCallSign with
    | some rr => .ok (cs == rr)
    | none => .error "KeyError: renter"
  else .ok false

/-- Attaches one raw booking node inside one role group: the node is appended
to the data of the first matching user and the loop breaks; an unknown
discriminant matches nobody. -/
def attachToGroup (r : RawBooking) : List UserB → Except String (List UserB)
  | [] => .ok []
  | u :: us =>
    match partyMatches r u.call_sign with
    | .error e => .error e
    | .ok true => .ok ({ u with bookingNodes := u.bookingNodes ++ [r] } :: us)
    | .ok false =>
      match attachToGroup r us with
      | .error e => .error e
      | .ok us2 => .ok (u :: us2)

/-- Attaches one raw booking node across the role groups (the break in
school.py only leaves the user loop of the current group). -/
def attachToGroups (r : RawBooking) :
    List (List UserB) → Except String (List (List UserB))
  | [] => .ok []
  | g :: gs =>
    match attachToGroup r g with
    | .error e => .error e
    | .ok g2 =>
      match attachToGroups r gs with
      | .error e => .error e
      | .ok gs2 => .ok (g2 :: gs2)

/-- School.get_bookings (school.py lines 135-175) over a list of fetched raw
booking nodes. -/
def school_get_bookings (raws : List RawBooking) (groups : List (List UserB)) :
    Except String (List (List UserB)) :=
  match raws with
  | [] => .ok groups
  | r :: rs =>
    match attachToGroups r groups with
    | .error e => .error e
    | .ok gs => school_get_bookings rs gs

/-- The per-user set_bookings pass of School (school.py lines 73-75), run for
each user in order over the shared aircraft collection. -/
def runUsersBookings : List UserB → List Aircraft → Except String (List Aircraft)
  | [], as => .ok as
  | u :: us, as =>
    match set_bookings u.bookingNodes as with
    | .error e => .error e
    | .ok (_, as1) => runUsersBookings us as1

/-- End-to-end booking flow for claim C10: attach fetched raw bookings to the
role groups, then build every user in order against the shared aircraft. -/
def bookingPipeline (raws : List RawBooking) (instructors students : List UserB)
    (as : List Aircraft) : Except String (List Aircraft) :=
  match school_get_bookings raws [instructors, students] with
  | .error e => .error e
  | .ok gs => runUsersBookings gs.flatten as

/-- Month-to-date minutes as the claim describes them: a sum over all flights
of windowed contributions plus a sum over all bookings of windowed non-solo,
non-cancelled contributions; written from the claim text. -/
def claimMtdMinutes (flights : List Flight) (bookings : List Booking)
    (sched : Date) : Int :=
  (flights.map fun f =>
    if Date.le (Date.monthStart sched) f.off_block.date &&
       Date.le f.off_block.date sched then f.airborne_minutes else 0).sum
  + (bookings.map fun b =>
    if Date.le (Date.monthStart sched) b.starts_at.date &&
       Date.le b.starts_at.date sched &&
       !b.is_solo && !b.is_cancelled then b.flight.airborne_minutes else 0).sum

/-! Concrete fixtures used by witnesses and counterexamples. -/

/-- Scheduling date used by the concrete fixtures. -/
def schedW : Date := ⟨2024, 3, 15⟩

/-- Open availability slot covering the fixture scheduling date. -/
def slotOpenW : AvailabilitySlot :=
  ⟨⟨⟨2024, 3, 10⟩, 480⟩, ⟨⟨2024, 3, 20⟩, 1080⟩, false⟩

/-- Flight on the first of the fixture scheduling month, 120 airborne minutes. -/
def fMar1 : Flight :=
  Flight.make ⟨⟨2024, 3, 1⟩, 540⟩ ⟨⟨2024, 3, 1⟩, 660⟩

/-- Cancelled booking inside the fixture month window, 90 flight minutes. -/
def bCancelled : Booking :=
  mkBooking
    { typename := "SingleStudentBooking"
      startsAt := ⟨⟨2024, 3, 14⟩, 540⟩
      endsAt := ⟨⟨2024, 3, 14⟩, 720⟩
      comment := none
      id := "bk-cncl"
      status := "CANCELLED"
      instructorCallSign := some "INS"
      studentCallSign := some "STU"
      renterCallSign := none
      picCallSign := none
      flightStartsAt := ⟨⟨2024, 3, 14⟩, 570⟩
      flightEndsAt := ⟨⟨2024, 3, 14⟩, 660⟩
      plannedLesson := none
      aircraftCallSign := "GCA" }
    (some "INS") (some "STU") none none none

/-- Flight on the fixture scheduling date with 300 airborne minutes. -/
def f300 : Flight :=
  Flight.make ⟨schedW, 480⟩ ⟨schedW, 780⟩

/-- Confirmed zero-flight-minute booking on the fixture scheduling date. -/
def bQual (n : String) : Booking :=
  mkBooking
    { typename := "SingleStudentBooking"
      startsAt := ⟨schedW, 600⟩
      endsAt := ⟨schedW, 720⟩
      comment := none
      id := n
      status := "CONFIRMED"
      instructorCallSign := some "INS"
      studentCallSign := some "STU"
      renterCallSign := none
      picCallSign := none
      flightStartsAt := ⟨schedW, 600⟩
      flightEndsAt := ⟨schedW, 600⟩
      plannedLesson := none
      aircraftCallSign := "GCA" }
    (some "INS") (some "STU") none none none

/-- Instructor fixture with 5.0 airborne hours and two qualifying bookings on
the scheduling date. -/
def uInstrW : UserState :=
  ⟨true, [f300], [bQual "bk-1", bQual "bk-2"], []⟩

/-- User fixture whose latest booking starts five days before the fixture
scheduling date. -/
def u8W : UserState :=
  ⟨false, [fMar1],
    [{ bQual "bk-old" with starts_at := ⟨⟨2024, 3, 10⟩, 600⟩ }], []⟩

/-- Two user pages of two nodes each for the pagination witness. -/
def pagesUsersW : List (Page String) :=
  [⟨["u1", "u2"], "cur1", true⟩, ⟨["u3", "u4"], "cur2", false⟩]

/-- Two aircraft pages of one node each; the aircraft fetch only returns the
first page. -/
def pagesAircraftW : List (Page RawAircraft) :=
  [⟨[⟨"GCA", 1000, "SEP"⟩], "curA", true⟩,
   ⟨[⟨"GCB", 2000, "SEP"⟩], "curB", false⟩]

/-- Raw rental booking node referencing aircraft GCA, 60 flight minutes,
starting the day before the fixture scheduling date. -/
def rawRentOffDate : RawBooking :=
  { typename := "RentalBooking"
    startsAt := ⟨⟨2024, 3, 14⟩, 600⟩
    endsAt := ⟨⟨2024, 3, 14⟩, 720⟩
    comment := none
    id := "bk-rent"
    status := "CONFIRMED"
    instructorCallSign := none
    studentCallSign := none
    renterCallSign := some "RNT"
    picCallSign := none
    flightStartsAt := ⟨⟨2024, 3, 14⟩, 630⟩
    flightEndsAt := ⟨⟨2024, 3, 14⟩, 690⟩
    plannedLesson := none
    aircraftCallSign := "GCA" }

/-- Raw booking node with an unknown discriminant tag. -/
def rawUnknownW : RawBooking :=
  { rawRentOffDate with typename := "MysteryBooking", id := "bk-unk" }

/-- Raw rental node whose flight ends before it starts (negative minutes). -/
def rawNegW : RawBooking :=
  { rawRentOffDate with
    id := "bk-neg"
    flightStartsAt := ⟨⟨2024, 3, 14⟩, 690⟩
    flightEndsAt := ⟨⟨2024, 3, 14⟩, 660⟩ }

/-- Raw single-student node for the C10 witness. -/
def rawSingleW : RawBooking :=
  { typename := "SingleStudentBooking"
    startsAt := ⟨schedW, 540⟩
    endsAt := ⟨schedW, 720⟩
    comment := none
    id := "bk-sgl"
    status := "CONFIRMED"
    instructorCallSign := some "INS"
    studentCallSign := some "STU"
    renterCallSign := none
    picCallSign := none
    flightStartsAt := ⟨schedW, 570⟩
    flightEndsAt := ⟨schedW, 630⟩
    plannedLesson := some "Lesson 1"
    aircraftCallSign := "GCA" }

/-- Booking built from the rental fixture node. -/
def bRentW : Booking := mkBooking rawRentOffDate none none (some "RNT") none none

/-- Aircraft GCA after the rental fixture booking registers on it. -/
def c9AfterW : Aircraft := registerBooking bRentW (Aircraft.init "GCA" 100)

/-- Booking built from the negative-duration rental fixture node. -/
def bNegW : Booking := mkBooking rawNegW none none (some "RNT") none none

/-- Aircraft GCA after the negative-duration fixture booking registers on it. -/
def c9NegAfterW : Aircraft := registerBooking bNegW (Aircraft.init "GCA" 0)

/-- Decidable equality for Except values, so concrete runs can be checked by
evaluation. -/
instance exceptDecEq {ε α : Type} [DecidableEq ε] [DecidableEq α] :
    DecidableEq (Except ε α) := fun x y =>
  match x, y with
  | .error a, .error b =>
    if h : a = b then isTrue (by rw [h])
    else isFalse (by intro hh; cases hh; exact h rfl)
  | .error _, .ok _ => isFalse (by intro hh; cases hh)
  | .ok _, .error _ => isFalse (by intro hh; cases hh)
  | .ok a, .ok b =>
    if h : a = b then isTrue (by rw [h])
    else isFalse (by intro hh; cases hh; exact h rfl)

/-! Helper lemmas. -/

/-- Date comparison is reflexive. -/
theorem Date.le_refl (d : Date) : Date.le d d = true := by
  simp [Date.le]

/-- Summing a mapped filter equals summing guarded contributions. -/
theorem sum_filter_map_eq {β : Type} (p : β → Bool) (f : β → Int) :
    ∀ l : List β,
      ((l.filter p).map f).sum = (l.map fun x => if p x then f x else 0).sum := by
  intro l
  induction l with
  | nil => rfl
  | cons x xs ih =>
    cases hp : p x <;> simp [List.filter_cons, hp, ih]

/-- The availability resolution is an existential scan over the slot list. -/
theorem set_availabilities_eq_any (slots : List AvailabilitySlot) (sched : Date) :
    set_availabilities slots sched =
      slots.any fun a =>
        !a.unavailable &&
        !(slots.any fun a2 =>
            DateTime.le a2.starts_at a.starts_at &&
            DateTime.le a.ends_at a2.ends_at &&
            a2.unavailable) &&
        Date.le a.starts_at.date sched &&
        Date.le sched a.ends_at.date := by
  cases slots <;> rfl

/-- Membership through descending insertion. -/
theorem mem_insertDescBy {α : Type} (key : α → Int) (x y : α) :
    ∀ l : List α, y ∈ insertDescBy key x l ↔ y = x ∨ y ∈ l := by
  intro l
  induction l with
  | nil => simp [insertDescBy]
  | cons a as ih =>
    simp only [insertDescBy]
    split
    · simp only [List.mem_cons, ih]
      tauto
    · simp only [List.mem_cons]

/-- Membership through the stable descending sort. -/
theorem sortDescBy_mem {α : Type} (key : α → Int) :
    ∀ (l : List α) (y : α), y ∈ sortDescBy key l ↔ y ∈ l := by
  intro l
  induction l with
  | nil => intro y; simp [sortDescBy]
  | cons a as ih =>
    intro y
    simp [sortDescBy, mem_insertDescBy, ih]

/-- The head of the descending sort belongs to the list. -/
theorem sortDescBy_head_mem {α : Type} (key : α → Int) (l : List α) (x : α)
    (rest : List α) (h : sortDescBy key l = x :: rest) : x ∈ l := by
  have hx : x ∈ sortDescBy key l := by rw [h]; simp
  exact (sortDescBy_mem key l x).mp hx

/-- The head of the descending sort has a maximal key. -/
theorem sortDescBy_head_max {α : Type} (key : α → Int) :
    ∀ (l : List α) (x : α) (rest : List α),
      sortDescBy key l = x :: rest → ∀ y ∈ l, key y ≤ key x := by
  intro l
  induction l with
  | nil => intro x rest h; simp [sortDescBy] at h
  | cons a as ih =>
    intro x rest h y hy
    rw [sortDescBy] at h
    cases hs : sortDescBy key as with
    | nil =>
      rw [hs] at h
      simp only [insertDescBy] at h
      obtain ⟨hax, -⟩ := List.cons.inj h
      rcases List.mem_cons.mp hy with hya | hyas
      · rw [hya, hax]
      · have : y ∈ sortDescBy key as := (sortDescBy_mem key as y).mpr hyas
        rw [hs] at this
        simp at this
    | cons b bs =>
      rw [hs] at h
      simp only [insertDescBy] at h
      split at h
      next hlt =>
        obtain ⟨hbx, -⟩ := List.cons.inj h
        rcases List.mem_cons.mp hy with hya | hyas
        · rw [hya, ← hbx]; exact le_of_lt hlt
        · rw [← hbx]; exact ih b bs hs y hyas
      next hge =>
        obtain ⟨hax, -⟩ := List.cons.inj h
        rcases List.mem_cons.mp hy with hya | hyas
        · rw [hya, hax]
        · rw [← hax]
          exact le_trans (ih b bs hs y hyas) (not_lt.mp hge)

/-! Claim theorems. -/

/-- C1: a person is available on the scheduling date iff some slot is open,
covers the date inclusively, and is not wholly contained in another slot
marked unavailable; an empty slot list resolves to unavailable. -/
theorem c1_availability (slots : List AvailabilitySlot) (sched : Date) :
    (set_availabilities slots sched = true ↔
      ∃ s ∈ slots, s.unavailable = false ∧
        Date.le s.starts_at.date sched = true ∧
        Date.le sched s.ends_at.date = true ∧
        ¬ ∃ s2 ∈ slots, s2 ≠ s ∧ s2.unavailable = true ∧
          DateTime.le s2.starts_at s.starts_at = true ∧
          DateTime.le s.ends_at s2.ends_at = true) ∧
    set_availabilities [] sched = false := by
  refine ⟨?_, rfl⟩
  rw [set_availabilities_eq_any, List.any_eq_true]
  constructor
  · rintro ⟨s, hs, hp⟩
    simp only [Bool.and_eq_true, Bool.not_eq_true'] at hp
    obtain ⟨⟨⟨hu, hin⟩, h1⟩, h2⟩ := hp
    refine ⟨s, hs, hu, h1, h2, ?_⟩
    rintro ⟨s2, hs2, -, hu2, hc1, hc2⟩
    have hq : (DateTime.le s2.starts_at s.starts_at &&
        DateTime.le s.ends_at s2.ends_at && s2.unavailable) = true := by
      simp [hc1, hc2, hu2]
    have hcontra : (slots.any fun a2 =>
        DateTime.le a2.starts_at s.starts_at &&
        DateTime.le s.ends_at a2.ends_at &&
        a2.unavailable) = true := List.any_eq_true.mpr ⟨s2, hs2, hq⟩
    rw [hin] at hcontra
    simp at hcontra
  · rintro ⟨s, hs, hu, h1, h2, hno⟩
    refine ⟨s, hs, ?_⟩
    cases hq : slots.any (fun a2 =>
        DateTime.le a2.starts_at s.starts_at &&
        DateTime.le s.ends_at a2.ends_at && a2.unavailable) with
    | false => simp [hu, hq, h1, h2]
    | true =>
      obtain ⟨s2, hs2, hps2⟩ := List.any_eq_true.mp hq
      simp only [Bool.and_eq_true] at hps2
      obtain ⟨⟨hc1, hc2⟩, hu2⟩ := hps2
      by_cases he : s2 = s
      · rw [he] at hu2
        rw [hu] at hu2
        simp at hu2
      · exact absurd ⟨s2, hs2, he, hu2, hc1, hc2⟩ hno

/-- Witness for C1: a single open slot covering the scheduling date makes the
person available. -/
theorem c1_availability_witness : set_availabilities [slotOpenW] schedW = true := by
  refine (c1_availability [slotOpenW] schedW).1.mpr ⟨slotOpenW, by simp, by decide,
    by decide, by decide, ?_⟩
  rintro ⟨s2, hs2, hne, -, -, -⟩
  simp only [List.mem_singleton] at hs2
  exact hne hs2

/-- C8: days since last flight comes from the most recent booking start when
any booking exists, else from the most recent flight off-block, else it is the
negative-infinity sentinel, which is distinct from every real day count. -/
theorem c8_days_since (u : UserState) (sched : Date) :
    (∀ b bs, u.bookings = b :: bs →
      ∃ m, m ∈ u.bookings ∧
        (∀ x ∈ u.bookings, x.starts_at.toMin ≤ m.starts_at.toMin) ∧
        (deriveState u sched).days_since_last_flight =
          .days (Date.daysBetween sched m.starts_at.date)) ∧
    (u.bookings = [] → ∀ f fs, u.flights = f :: fs →
      ∃ m, m ∈ u.flights ∧
        (∀ x ∈ u.flights, x.off_block.toMin ≤ m.off_block.toMin) ∧
        (deriveState u sched).days_since_last_flight =
          .days (Date.daysBetween sched m.off_block.date)) ∧
    (u.bookings = [] → u.flights = [] →
      (deriveState u sched).days_since_last_flight = DaysVal.negInf) ∧
    (∀ z : Int, DaysVal.negInf ≠ DaysVal.days z) := by
  refine ⟨?_, ?_, ?_, fun z h => by cases h⟩
  · intro b bs hb
    cases hs : sortDescBy (fun b => b.starts_at.toMin) u.bookings with
    | nil =>
      have : b ∈ sortDescBy (fun b => b.starts_at.toMin) u.bookings :=
        (sortDescBy_mem _ u.bookings b).mpr (by rw [hb]; simp)
      rw [hs] at this
      simp at this
    | cons m rest =>
      refine ⟨m, sortDescBy_head_mem _ u.bookings m rest hs,
        sortDescBy_head_max _ u.bookings m rest hs, ?_⟩
      simp only [deriveState, days_since_last_flight, hs]
  · intro hb f fs hf
    cases hs : sortDescBy (fun f => f.off_block.toMin) u.flights with
    | nil =>
      have : f ∈ sortDescBy (fun f => f.off_block.toMin) u.flights :=
        (sortDescBy_mem _ u.flights f).mpr (by rw [hf]; simp)
      rw [hs] at this
      simp at this
    | cons m rest =>
      refine ⟨m, sortDescBy_head_mem _ u.flights m rest hs,
        sortDescBy_head_max _ u.flights m rest hs, ?_⟩
      simp only [deriveState, days_since_last_flight, hb, sortDescBy, hs]
  · intro hb hf
    simp only [deriveState, days_since_last_flight, hb, hf, sortDescBy]

/-- Witness for C8: the fixture user has a booking, so the sentinel branch is
not taken and the most recent booking start date is used. -/
theorem c8_days_since_witness :
    ∃ m, m ∈ u8W.bookings ∧
      (∀ x ∈ u8W.bookings, x.starts_at.toMin ≤ m.starts_at.toMin) ∧
      (deriveState u8W schedW).days_since_last_flight =
        .days (Date.daysBetween schedW m.starts_at.date) :=
  (c8_days_since u8W schedW).1 _ _ rfl

/-- C4: the order rank assigned at Training construction equals the ordered
first-match-wins substring rule list of the claim, and a training under
program PPL Skill Test ranks 1 by that precedence, whatever its name. -/
theorem c4_training_order :
    (∀ p n, trainingOrder p n = claimTrainingOrder p n) ∧
    (∀ n, trainingOrder "PPL Skill Test" n = 1) :=
  ⟨fun _ _ => rfl, fun _ => rfl⟩

/-- C7: any finite number of transport-classified failures before a success
returns the same result as an immediate success, with no retry ceiling, while
a non-transport error propagates to the caller. -/
theorem c7_retry :
    (∀ (α : Type) (n : Nat) (v : α) (rest rest2 : List (Attempt α)),
       send_request (List.replicate n .transportErr ++ (.ok v :: rest)) =
         send_request (.ok v :: rest2)) ∧
    (∀ (α : Type) (v : α) (rest : List (Attempt α)),
       send_request (.ok v :: rest) = some (.ok v)) ∧
    (∀ (α : Type) (m : String) (rest : List (Attempt α)),
       send_request (.otherErr m :: rest) = some (.error m)) := by
  refine ⟨?_, fun _ _ _ => rfl, fun _ _ _ => rfl⟩
  intro α n v rest rest2
  induction n with
  | zero => rfl
  | succ k ih => simpa [List.replicate, send_request] using ih

/-- C2: the month-to-date airborne minutes of User.initialize equal the sum
of windowed flight minutes plus windowed non-solo, non-cancelled booking
minutes as the claim states; a flight on the first of the scheduling month
contributes its full minutes, and a cancelled booking in the window
contributes zero. -/
theorem c2_mtd :
    (∀ (u : UserState) (sched : Date),
       (deriveState u sched).airborne_time_mtd_minutes =
         claimMtdMinutes u.flights u.bookings sched) ∧
    (∀ (f : Flight) (sched : Date),
       f.off_block.date = Date.monthStart sched →
       Date.le f.off_block.date sched = true →
       airborne_time_mtd_minutes [f] [] sched = f.airborne_minutes) ∧
    (∀ (b : Booking) (sched : Date),
       Date.le (Date.monthStart sched) b.starts_at.date = true →
       Date.le b.starts_at.date sched = true →
       b.is_cancelled = true →
       airborne_time_mtd_minutes [] [b] sched = 0) := by
  refine ⟨?_, ?_, ?_⟩
  · intro u sched
    simp only [deriveState, airborne_time_mtd_minutes, claimMtdMinutes,
      sum_filter_map_eq]
  · intro f sched h1 h2
    have h3 : Date.le (Date.monthStart sched) sched = true := by
      rw [← h1]; exact h2
    simp [airborne_time_mtd_minutes, h1, h3, Date.le_refl]
  · intro b sched h1 h2 h3
    simp [airborne_time_mtd_minutes, h3]

/-- Witness for C2: the fixture flight on 2024-03-01 contributes its full 120
minutes to the month-to-date total for scheduling date 2024-03-15, and the
cancelled fixture booking on 2024-03-14 contributes zero. -/
theorem c2_mtd_witness :
    airborne_time_mtd_minutes [fMar1] [] schedW = fMar1.airborne_minutes ∧
    airborne_time_mtd_minutes [] [bCancelled] schedW = 0 :=
  ⟨c2_mtd.2.1 fMar1 schedW (by decide) (by decide),
   c2_mtd.2.2 bCancelled schedW (by decide) (by decide) (by decide)⟩

/-- C3: for an instructor, the tiredness of User.initialize equals the claim
formula on the scheduling-date airborne time and the count of non-solo,
non-cancelled bookings starting on the scheduling date; it is zero when no
qualifying activity exists, and 5.0 airborne hours with 2 qualifying bookings
give ((5 + 2) / 9) * 100. -/
theorem c3_tiredness :
    ∀ (u : UserState) (sched : Date), u.is_instructor = true →
    ((deriveState u sched).tiredness =
       some (((airborne_time_on_scheduling_date u.flights u.bookings sched : ℚ) / 60
         + (qualifyingBookingCount u.bookings sched : ℚ)) / 9 * 100)) ∧
    (airborne_time_on_scheduling_date u.flights u.bookings sched = 0 →
       qualifyingBookingCount u.bookings sched = 0 →
       (deriveState u sched).tiredness = some 0) ∧
    (airborne_time_on_scheduling_date u.flights u.bookings sched = 300 →
       qualifyingBookingCount u.bookings sched = 2 →
       (deriveState u sched).tiredness = some (((5 : ℚ) + 2) / 9 * 100)) := by
  intro u sched h
  refine ⟨by simp [deriveState, h, tiredness], ?_, ?_⟩
  · intro hA hc
    simp [deriveState, h, tiredness, hA, hc]
  · intro hA hc
    simp only [deriveState, h, if_true, tiredness, hA, hc]
    norm_num

/-- Witness for C3: the fixture instructor has 300 scheduling-date airborne
minutes and two qualifying bookings, so tiredness is ((5 + 2) / 9) * 100. -/
theorem c3_tiredness_witness :
    (deriveState uInstrW schedW).tiredness = some (((5 : ℚ) + 2) / 9 * 100) :=
  (c3_tiredness uInstrW schedW (by decide)).2.2 (by decide) (by decide)

/-- Nodes and cursor trace produced by the follow-up loop of the users fetch
on a well-paged tail. -/
theorem usersLoop_spec {α : Type} :
    ∀ (rest : List (Page α)) (r : Page α), wellPaged (r :: rest) = true →
      (usersLoop r rest).1 = (rest.map (·.nodes)).flatten ∧
      (usersLoop r rest).2 = (r :: rest).dropLast.map (·.endCursor) := by
  intro rest
  induction rest with
  | nil =>
    intro r hw
    simp only [wellPaged, Bool.not_eq_true'] at hw
    simp [usersLoop, hw]
  | cons q rest ih =>
    intro r hw
    simp only [wellPaged, Bool.and_eq_true] at hw
    obtain ⟨h1, h2⟩ := hw
    obtain ⟨hn, hc⟩ := ih q h2
    simp only [usersLoop, h1, if_true]
    constructor
    · simp [hn]
    · simp only [hc]
      rfl

/-- All-but-last lists of a list of lists of fixed length flatten to a list
of proportional length. -/
theorem flatten_length_const {β : Type} (k : Nat) :
    ∀ l : List (List β), (∀ x ∈ l, x.length = k) →
      l.flatten.length = l.length * k := by
  intro l
  induction l with
  | nil => intro _; simp
  | cons x xs ih =>
    intro h
    simp only [List.flatten_cons, List.length_append, List.length_cons]
    rw [h x (by simp), ih (fun y hy => h y (by simp [hy]))]
    ring

/-- C5 (amended): the users-by-role fetch merges all pages in original order,
with length N times k for N well-paged pages of k nodes, and each follow-up
request carries the immediately-preceding endCursor; the aircraft fetch, by
contrast, issues a single request and returns only the first page of nodes,
re-sorted by descending total airborne minutes. -/
theorem c5_pagination :
    (∀ (α : Type) (pages : List (Page α)) (k : Nat),
       wellPaged pages = true →
       (∀ p ∈ pages, p.nodes.length = k) →
       (get_users_by_role pages).1 = (pages.map (·.nodes)).flatten ∧
       (get_users_by_role pages).1.length = pages.length * k ∧
       (get_users_by_role pages).2 = pages.dropLast.map (·.endCursor)) ∧
    (∀ (p : Page RawAircraft) (rest : List (Page RawAircraft)),
       get_aircrafts (p :: rest) = sortAircraftDesc p.nodes) := by
  constructor
  · intro α pages k hw hk
    cases pages with
    | nil => simp [get_users_by_role]
    | cons p rest =>
      obtain ⟨hn, hc⟩ := usersLoop_spec rest p hw
      have hfirst : (get_users_by_role (p :: rest)).1 =
          ((p :: rest).map (·.nodes)).flatten := by
        simp [get_users_by_role, hn]
      refine ⟨hfirst, ?_, by simp [get_users_by_role, hc]⟩
      rw [hfirst, flatten_length_const k _ ?_, List.length_map]
      intro x hx
      obtain ⟨pp, hpp, rfl⟩ := List.mem_map.mp hx
      exact hk pp hpp
  · intro p rest
    rfl

/-- Witness for C5: two well-paged user pages of two nodes each merge to four
nodes in page order, and the single follow-up request carries the first
endCursor. -/
theorem c5_pagination_witness :
    (get_users_by_role pagesUsersW).1 = (pagesUsersW.map (·.nodes)).flatten ∧
    (get_users_by_role pagesUsersW).1.length = pagesUsersW.length * 2 ∧
    (get_users_by_role pagesUsersW).2 = pagesUsersW.dropLast.map (·.endCursor) :=
  c5_pagination.1 String pagesUsersW 2 (by decide) (by decide)

/-- Counterexample for C5 as stated: with two well-paged aircraft pages of one
node each, the aircraft fetch returns one node, not two times one, because it
never follows hasNextPage. -/
theorem c5_counterexample :
    wellPaged pagesAircraftW = true ∧
    (∀ p ∈ pagesAircraftW, p.nodes.length = 1) ∧
    pagesAircraftW.length = 2 ∧
    (get_aircrafts pagesAircraftW).length = 1 ∧
    ¬ (get_aircrafts pagesAircraftW).length = 2 * 1 := by
  decide

/-- C6 (amended): a raw booking node whose discriminant contains none of the
three known variant markers is silently skipped, with no Booking constructed
and no error raised, while a node tagged Rental builds a Booking with renter
populated and instructor, student and pic unset. -/
theorem c6_classification :
    (∀ (r : RawBooking) (as : List Aircraft),
       containsSub "Single" r.typename = false →
       containsSub "Rental" r.typename = false →
       containsSub "Operation" r.typename = false →
       set_bookings [r] as = .ok ([], as)) ∧
    (∀ (r : RawBooking) (as : List Aircraft) (rc : String),
       containsSub "Single" r.typename = false →
       containsSub "Rental" r.typename = true →
       r.renterCallSign = some rc →
       hasAircraft r.aircraftCallSign as = true →
       set_bookings [r] as =
         .ok ([mkBooking r none none (some rc) none none],
              registerOnFirst (mkBooking r none none (some rc) none none) as) ∧
       (mkBooking r none none (some rc) none none).renter = some rc ∧
       (mkBooking r none none (some rc) none none).instructor = none ∧
       (mkBooking r none none (some rc) none none).student = none ∧
       (mkBooking r none none (some rc) none none).pic = none) := by
  constructor
  · intro r as h1 h2 h3
    simp [set_bookings, buildOne, h1, h2, h3]
  · intro r as rc h1 h2 hrc hair
    refine ⟨?_, rfl, rfl, rfl, rfl⟩
    simp [set_bookings, buildOne, h1, h2, hrc, finishBooking, mkBooking, hair]

/-- Witness for C6: the rental fixture node builds one Booking with renter
RNT and no instructor, student or pic. -/
theorem c6_classification_witness :
    set_bookings [rawRentOffDate] [Aircraft.init "GCA" 100] =
      .ok ([mkBooking rawRentOffDate none none (some "RNT") none none],
           registerOnFirst (mkBooking rawRentOffDate none none (some "RNT") none none)
             [Aircraft.init "GCA" 100]) ∧
    (mkBooking rawRentOffDate none none (some "RNT") none none).renter = some "RNT" ∧
    (mkBooking rawRentOffDate none none (some "RNT") none none).instructor = none ∧
    (mkBooking rawRentOffDate none none (some "RNT") none none).student = none ∧
    (mkBooking rawRentOffDate none none (some "RNT") none none).pic = none :=
  c6_classification.2 rawRentOffDate [Aircraft.init "GCA" 100] "RNT"
    (by decide) (by decide) (by decide) (by decide)

/-- Counterexample for C6 as stated: an unknown discriminant does not raise a
fatal error; the node is silently dropped and construction succeeds with no
booking. -/
theorem c6_counterexample :
    set_bookings [rawUnknownW] [Aircraft.init "GCA" 100] =
      .ok ([], [Aircraft.init "GCA" 100]) := by
  decide

/-- Registration preserves the call sign of an aircraft. -/
theorem registerBooking_call_sign (b : Booking) (a : Aircraft) :
    (registerBooking b a).call_sign = a.call_sign := rfl

/-- Looking up a call sign through a registration: the looked-up aircraft is
updated exactly when the booking references that call sign. -/
theorem find_registerOnFirst (b : Booking) (cs : String) :
    ∀ as : List Aircraft,
      findByCallSign cs (registerOnFirst b as) =
        if cs = b.aircraftCallSign then
          (findByCallSign cs as).map (registerBooking b)
        else findByCallSign cs as := by
  intro as
  induction as with
  | nil => simp [registerOnFirst, findByCallSign]
  | cons a rest ih =>
    simp only [findByCallSign] at ih ⊢
    by_cases hab : a.call_sign = b.aircraftCallSign
    · have hreg : registerOnFirst b (a :: rest) = registerBooking b a :: rest := by
        simp [registerOnFirst, hab]
      by_cases hcs : cs = b.aircraftCallSign
      · have hac : a.call_sign = cs := hab.trans hcs.symm
        have h1 : ((registerBooking b a).call_sign == cs) = true := by
          simp [registerBooking_call_sign, hac]
        have h2 : (a.call_sign == cs) = true := by simp [hac]
        rw [hreg, if_pos hcs]
        simp [h1, h2]
      · have hac : ¬ a.call_sign = cs := fun hh => hcs (hh.symm.trans hab)
        have h1 : ¬ ((registerBooking b a).call_sign == cs) = true := by
          simp [registerBooking_call_sign, hac]
        have h2 : ¬ (a.call_sign == cs) = true := by simp [hac]
        rw [hreg]
        simp [h1, h2, hcs]
    · have hreg : registerOnFirst b (a :: rest) = a :: registerOnFirst b rest := by
        simp [registerOnFirst, hab]
      by_cases hpa : a.call_sign = cs
      · have hcs : ¬ cs = b.aircraftCallSign := fun hh => hab (hpa.trans hh)
        have h2 : (a.call_sign == cs) = true := by simp [hpa]
        rw [hreg]
        simp [h2, hcs]
      · have h2 : ¬ (a.call_sign == cs) = true := by simp [hpa]
        rw [hreg]
        simp [h2, ih]

/-- A successful finishBooking returns the booking and registers it. -/
theorem finishBooking_ok {b : Booking} {as : List Aircraft}
    {ob : Option Booking} {as1 : List Aircraft}
    (h : finishBooking b as = .ok (ob, as1)) :
    ob = some b ∧ as1 = registerOnFirst b as := by
  unfold finishBooking at h
  split at h
  · simp only [Except.ok.injEq, Prod.mk.injEq] at h
    exact ⟨h.1.symm, h.2.symm⟩
  · simp at h

/-- A successful buildOne either skipped an unknown discriminant, leaving the
aircraft untouched, or produced one booking and registered it. -/
theorem buildOne_ok {r : RawBooking} {as : List Aircraft}
    {ob : Option Booking} {as1 : List Aircraft}
    (h : buildOne r as = .ok (ob, as1)) :
    (ob = none ∧ as1 = as) ∨
    ∃ b, ob = some b ∧ as1 = registerOnFirst b as := by
  unfold buildOne at h
  split at h
  · split at h
    · exact Or.inr ⟨_, (finishBooking_ok h).1, (finishBooking_ok h).2⟩
    · simp at h
  · split at h
    · split at h
      · exact Or.inr ⟨_, (finishBooking_ok h).1, (finishBooking_ok h).2⟩
      · simp at h
    · split at h
      · split at h
        · exact Or.inr ⟨_, (finishBooking_ok h).1, (finishBooking_ok h).2⟩
        · simp at h
      · simp only [Except.ok.injEq, Prod.mk.injEq] at h
        exact Or.inl ⟨h.1.symm, h.2.symm⟩

/-- The accumulated effect composes: registering b first and then running the
rest equals running b together with the rest, for a matching call sign. -/
theorem accumulateRun_cons_match (b : Booking) (bs : List Booking)
    (a : Aircraft) :
    accumulateRun bs b.aircraftCallSign (registerBooking b a) =
      accumulateRun (b :: bs) b.aircraftCallSign a := by
  simp [accumulateRun, registerBooking, List.filter_cons, List.append_assoc,
    add_assoc]

/-- A booking referencing a different call sign does not contribute. -/
theorem accumulateRun_cons_other (b : Booking) (bs : List Booking)
    (cs : String) (hcs : ¬ cs = b.aircraftCallSign) (a : Aircraft) :
    accumulateRun (b :: bs) cs a = accumulateRun bs cs a := by
  have hb : (b.aircraftCallSign == cs) = false := by
    simp only [beq_eq_false_iff_ne]
    intro hh
    exact hcs hh.symm
  simp [accumulateRun, List.filter_cons, hb]

/-- Unfolds one set_bookings step that skipped an unknown discriminant. -/
theorem set_bookings_cons_none {r : RawBooking} {rs : List RawBooking}
    {as as1 : List Aircraft} (hb : buildOne r as = .ok (none, as1)) :
    set_bookings (r :: rs) as = set_bookings rs as1 := by
  rw [set_bookings, hb]

/-- Unfolds one set_bookings step that produced a booking. -/
theorem set_bookings_cons_some {r : RawBooking} {rs : List RawBooking}
    {as as1 : List Aircraft} {b : Booking}
    (hb : buildOne r as = .ok (some b, as1)) :
    set_bookings (r :: rs) as =
      match set_bookings rs as1 with
      | .error e => .error e
      | .ok (bs1, as3) => .ok (b :: bs1, as3) := by
  rw [set_bookings, hb]

/-- What a successful set_bookings run does to every aircraft, looked up by
call sign: exactly the constructed bookings referencing that call sign are
appended and their flight minutes accumulate on the counter. -/
theorem set_bookings_effect :
    ∀ (rs : List RawBooking) (as : List Aircraft) (bs : List Booking)
      (as2 : List Aircraft),
      set_bookings rs as = .ok (bs, as2) → ∀ cs,
        findByCallSign cs as2 =
          (findByCallSign cs as).map (accumulateRun bs cs) := by
  intro rs
  induction rs with
  | nil =>
    intro as bs as2 h cs
    simp only [set_bookings, Except.ok.injEq, Prod.mk.injEq] at h
    obtain ⟨hbs, has⟩ := h
    subst hbs
    rw [← has]
    cases hf : findByCallSign cs as <;> simp [accumulateRun]
  | cons r rs ih =>
    intro as bs as2 h cs
    cases hb : buildOne r as with
    | error e =>
      rw [set_bookings, hb] at h
      simp at h
    | ok pair =>
      obtain ⟨ob, as1⟩ := pair
      rcases buildOne_ok hb with ⟨hob, has1⟩ | ⟨b, hob, has1⟩
      · subst hob
        rw [set_bookings_cons_none hb] at h
        have hih := ih as1 bs as2 h cs
        rw [has1] at hih
        exact hih
      · subst hob
        rw [set_bookings_cons_some hb] at h
        cases hrec : set_bookings rs as1 with
        | error e =>
          rw [hrec] at h
          simp at h
        | ok pr =>
          obtain ⟨bs1, as3⟩ := pr
          rw [hrec] at h
          simp only [Except.ok.injEq, Prod.mk.injEq] at h
          obtain ⟨hbs, has2⟩ := h
          subst hbs
          subst has2
          have hih := ih as1 bs1 as3 hrec cs
          rw [has1] at hih
          rw [hih, find_registerOnFirst]
          by_cases hcs : cs = b.aircraftCallSign
          · rw [if_pos hcs]
            subst hcs
            cases hf : findByCallSign b.aircraftCallSign as with
            | none => simp
            | some a =>
              simp only [Option.map_some']
              rw [accumulateRun_cons_match]
          · rw [if_neg hcs]
            cases hf : findByCallSign cs as with
            | none => simp
            | some a =>
              simp only [Option.map_some']
              rw [accumulateRun_cons_other b bs1 cs hcs]

/-- C9 (amended): the scheduled-minutes counter starts each run at zero;
after a successful set_bookings run every aircraft, looked up by call sign,
has gained exactly the bookings constructed during the run that reference it,
with the counter grown by their flight minutes regardless of the booking
date; in particular the counter never decreases over a run whose constructed
bookings all have nonnegative flight minutes. -/
theorem c9_counter :
    (∀ (cs : String) (t : Int),
       (Aircraft.init cs t).sch_date_booked_flight_minutes = 0) ∧
    (∀ (rs : List RawBooking) (as : List Aircraft) (bs : List Booking)
       (as2 : List Aircraft),
       set_bookings rs as = .ok (bs, as2) → ∀ cs,
         findByCallSign cs as2 =
           (findByCallSign cs as).map (accumulateRun bs cs)) ∧
    (∀ (rs : List RawBooking) (as : List Aircraft) (bs : List Booking)
       (as2 : List Aircraft) (cs : String) (a a2 : Aircraft),
       set_bookings rs as = .ok (bs, as2) →
       findByCallSign cs as = some a →
       findByCallSign cs as2 = some a2 →
       (∀ b ∈ bs, 0 ≤ b.flight.airborne_minutes) →
       a.sch_date_booked_flight_minutes ≤ a2.sch_date_booked_flight_minutes) := by
  refine ⟨fun _ _ => rfl, set_bookings_effect, ?_⟩
  intro rs as bs as2 cs a a2 h hfa hfa2 hnn
  have heff := set_bookings_effect rs as bs as2 h cs
  rw [hfa, hfa2] at heff
  simp only [Option.map_some', Option.some.injEq] at heff
  have hsum : 0 ≤ ((bs.filter (fun b => b.aircraftCallSign == cs)).map
      (·.flight.airborne_minutes)).sum := by
    apply List.sum_nonneg
    intro x hx
    obtain ⟨bb, hbb, rfl⟩ := List.mem_map.mp hx
    exact hnn bb (List.mem_of_mem_filter hbb)
  rw [heff]
  simp only [accumulateRun]
  exact le_add_of_nonneg_right hsum

/-- Witness for C9: registering the rental fixture booking leaves the GCA
counter no smaller than before. -/
theorem c9_counter_witness :
    (Aircraft.init "GCA" 100).sch_date_booked_flight_minutes ≤
      c9AfterW.sch_date_booked_flight_minutes :=
  c9_counter.2.2 [rawRentOffDate] [Aircraft.init "GCA" 100] [bRentW] [c9AfterW]
    "GCA" (Aircraft.init "GCA" 100) c9AfterW (by decide) (by decide) (by decide)
    (by decide)

/-- Counterexample for C9 as stated: a booking that starts the day before the
scheduling date still adds its 60 flight minutes to the counter, so the
counter does not equal the minutes booked on the scheduling date; and a
booking whose flight ends before it starts makes the counter decrease. -/
theorem c9_counterexample :
    set_bookings [rawRentOffDate] [Aircraft.init "GCA" 100] =
      .ok ([bRentW], [c9AfterW]) ∧
    c9AfterW.sch_date_booked_flight_minutes = 60 ∧
    claimSchedDateMinutes schedW [bRentW] "GCA" = 0 ∧
    ¬ c9AfterW.sch_date_booked_flight_minutes =
        claimSchedDateMinutes schedW [bRentW] "GCA" ∧
    set_bookings [rawNegW] [Aircraft.init "GCA" 0] =
      .ok ([bNegW], [c9NegAfterW]) ∧
    c9NegAfterW.sch_date_booked_flight_minutes <
      (Aircraft.init "GCA" 0).sch_date_booked_flight_minutes := by
  decide

/-- C10: a single-student raw node whose instructor and student call signs
both match fetched users is attached to both users, each user constructs a
Booking from it, both register on the same resolved aircraft, and that
aircraft gains two booking entries and twice the flight minutes on its
counter. -/
theorem c10_double_registration :
    ∀ (r : RawBooking) (ic sc : String) (t : Int) (l0 : List Booking) (c0 : Int),
      containsSub "Single" r.typename = true →
      r.instructorCallSign = some ic →
      r.studentCallSign = some sc →
      bookingPipeline [r] [⟨ic, []⟩] [⟨sc, []⟩]
          [⟨r.aircraftCallSign, t, l0, c0⟩] =
        .ok [⟨r.aircraftCallSign, t,
              l0 ++ [mkBooking r (some ic) (some sc) none none r.plannedLesson,
                     mkBooking r (some ic) (some sc) none none r.plannedLesson],
              c0 + 2 * (rawFlight r).airborne_minutes⟩] := by
  intro r ic sc t l0 c0 h1 h2 h3
  have hpmI : partyMatches r ic = .ok true := by
    simp [partyMatches, h1, h2, h3]
  have hpmS : partyMatches r sc = .ok true := by
    simp [partyMatches, h1, h2, h3]
  have hg : school_get_bookings [r] [[⟨ic, []⟩], [⟨sc, []⟩]] =
      .ok [[⟨ic, [r]⟩], [⟨sc, [r]⟩]] := by
    simp [school_get_bookings, attachToGroups, attachToGroup, hpmI, hpmS]
  have hbacs : (mkBooking r (some ic) (some sc) none none
      r.plannedLesson).aircraftCallSign = r.aircraftCallSign := rfl
  have hsb : ∀ a : Aircraft, a.call_sign = r.aircraftCallSign →
      set_bookings [r] [a] =
        .ok ([mkBooking r (some ic) (some sc) none none r.plannedLesson],
             [registerBooking
               (mkBooking r (some ic) (some sc) none none r.plannedLesson) a]) := by
    intro a ha
    have hair : hasAircraft r.aircraftCallSign [a] = true := by
      simp [hasAircraft, ha]
    have hb1 : buildOne r [a] =
        .ok (some (mkBooking r (some ic) (some sc) none none r.plannedLesson),
             [registerBooking
               (mkBooking r (some ic) (some sc) none none r.plannedLesson) a]) := by
      simp [buildOne, h1, h2, h3, finishBooking, hair, registerOnFirst, hbacs, ha]
    rw [set_bookings_cons_some hb1]
    rfl
  have hrun : runUsersBookings [⟨ic, [r]⟩, ⟨sc, [r]⟩]
      [⟨r.aircraftCallSign, t, l0, c0⟩] =
      .ok [registerBooking (mkBooking r (some ic) (some sc) none none r.plannedLesson)
            (registerBooking (mkBooking r (some ic) (some sc) none none r.plannedLesson)
              ⟨r.aircraftCallSign, t, l0, c0⟩)] := by
    have hstep1 := hsb ⟨r.aircraftCallSign, t, l0, c0⟩ rfl
    have hstep2 := hsb (registerBooking
      (mkBooking r (some ic) (some sc) none none r.plannedLesson)
      ⟨r.aircraftCallSign, t, l0, c0⟩) rfl
    simp [runUsersBookings, hstep1, hstep2]
  have hfl : (mkBooking r (some ic) (some sc) none none r.plannedLesson).flight =
      rawFlight r := rfl
  have hfinal : registerBooking
      (mkBooking r (some ic) (some sc) none none r.plannedLesson)
      (registerBooking (mkBooking r (some ic) (some sc) none none r.plannedLesson)
        ⟨r.aircraftCallSign, t, l0, c0⟩) =
      ⟨r.aircraftCallSign, t,
        l0 ++ [mkBooking r (some ic) (some sc) none none r.plannedLesson,
               mkBooking r (some ic) (some sc) none none r.plannedLesson],
        c0 + 2 * (rawFlight r).airborne_minutes⟩ := by
    simp only [registerBooking]
    simp [List.append_assoc, hfl, two_mul, add_assoc]
  have hflat : ([[⟨ic, [r]⟩], [⟨sc, [r]⟩]] : List (List UserB)).flatten =
      [⟨ic, [r]⟩, ⟨sc, [r]⟩] := by simp
  rw [show bookingPipeline [r] [⟨ic, []⟩] [⟨sc, []⟩]
        [⟨r.aircraftCallSign, t, l0, c0⟩] =
      runUsersBookings ([[⟨ic, [r]⟩], [⟨sc, [r]⟩]] : List (List UserB)).flatten
        [⟨r.aircraftCallSign, t, l0, c0⟩] from by
    simp only [bookingPipeline, hg]]
  rw [hflat, hrun, hfinal]

/-- Witness for C10: the single-student fixture booking is attached to both
the fixture instructor and student, and aircraft GCA gains two booking
entries and twice the 60 flight minutes. -/
theorem c10_double_registration_witness :
    bookingPipeline [rawSingleW] [⟨"INS", []⟩] [⟨"STU", []⟩]
        [⟨rawSingleW.aircraftCallSign, 500, [], 0⟩] =
      .ok [⟨rawSingleW.aircraftCallSign, 500,
            [] ++ [mkBooking rawSingleW (some "INS") (some "STU") none none
                     rawSingleW.plannedLesson,
                   mkBooking rawSingleW (some "INS") (some "STU") none none
                     rawSingleW.plannedLesson],
            0 + 2 * (rawFlight rawSingleW).airborne_minutes⟩] :=
  c10_double_registration rawSingleW "INS" "STU" 500 [] 0 (by decide) rfl rfl

end FSS
